import Mathlib

/-!
Verification of the Flask storefront `application.py` against its
natural-language specification, via a shallow embedding in Lean 4.

The Python program keeps a process-wide mutable dict `cart`; here the cart
is threaded explicitly as a value of type `Cart`, an insertion-ordered
association list (Python dicts preserve insertion order and have unique
keys). Remote effects (S3 upload, presigned URL generation, SQS send) are
recorded in the returned result structures rather than performed.
-/

namespace Storefront

/-- A row of the `products` table, as fetched by `get_all_products` /
`get_product` (`DictCursor` rows). `image_url` holds the S3 key; the empty
string models both an absent and an empty value, matching Python's
truthiness test `p.get("image_url")`. -/
structure Product where
  id : Nat
  name : String
  price : Nat
  image_url : String
deriving Repr, DecidableEq

/-- The products table: the rows returned by `SELECT * FROM products`. -/
abbrev DB := List Product

/-- Embeds `get_product` (application.py lines 60-66): the first row whose
`id` matches, if any. -/
def get_product (db : DB) (pid : Nat) : Option Product :=
  db.find? (fun p => p.id == pid)

/-- What a template receives for a product image: a presigned URL for a
key (`presigned_get_url`, default TTL 3600), the static placeholder
(`url_for("static", filename="placeholder.png")`), or the raw value left
untouched by the handler. -/
inductive ImageRef where
  | signed (key : String) (expires : Nat)
  | placeholder
  | raw (val : String)
deriving Repr, DecidableEq

/-- Embeds `presigned_get_url` (lines 71-76) as a symbolic record of the
call; the default `expires=3600` is passed explicitly at call sites. -/
def presigned_get_url (key : String) (expires : Nat) : ImageRef :=
  ImageRef.signed key expires

/-- A product as handed to `index.html` / `product.html`: the row plus its
resolved `image_url` field. -/
structure RenderedProduct where
  product : Product
  image : ImageRef
deriving Repr, DecidableEq

/-- The image resolution performed by `home` (lines 91-96) and
`product_page` (lines 107-110): presign a truthy key, otherwise substitute
the static placeholder. -/
def resolve_image (img : String) : ImageRef :=
  if img ≠ "" then presigned_get_url img 3600 else ImageRef.placeholder

/-- Embeds the `home` route (lines 87-98): every product is rendered with
its image key resolved to a presigned link or the placeholder. -/
def home (db : DB) : List RenderedProduct :=
  db.map (fun p => ⟨p, resolve_image p.image_url⟩)

/-- Response of `GET /product/<int:pid>`. -/
inductive ProductPageResponse where
  | notFound (body : String) (status : Nat)
  | page (p : RenderedProduct)
deriving Repr, DecidableEq

/-- Embeds `product_page` (lines 101-112): 404 with a plain-text body when
the row is absent, otherwise the detail page with the image resolved. -/
def product_page (db : DB) (pid : Nat) : ProductPageResponse :=
  match get_product db pid with
  | none => ProductPageResponse.notFound "Product not found" 404
  | some p => ProductPageResponse.page ⟨p, resolve_image p.image_url⟩

/-- The process-wide `cart` dict (line 81): product id to quantity, in
insertion order, keys unique in every reachable state. -/
abbrev Cart := List (Nat × Nat)

/-- Dictionary lookup `cart.get(pid)`: the quantity stored under `pid`. -/
def cart_get (c : Cart) (pid : Nat) : Option Nat :=
  (c.find? (fun e => e.1 == pid)).map (fun e => e.2)

/-- Embeds `add_to_cart` (lines 135-138): Python's
`cart[pid] = cart.get(pid, 0) + 1` updates the existing entry in place
(preserving its position) or appends a fresh entry with quantity 1. -/
def add_to_cart (c : Cart) (pid : Nat) : Cart :=
  match cart_get c pid with
  | some _ => c.map (fun e => if e.1 == pid then (e.1, e.2 + 1) else e)
  | none => c ++ [(pid, 1)]

/-- One line of `cart.html`: the (image-resolved) product, quantity and
subtotal. -/
structure CartItem where
  product : Product
  image : ImageRef
  qty : Nat
  subtotal : Nat
deriving Repr, DecidableEq

/-- Data handed to `cart.html` by `view_cart`. -/
structure CartView where
  items : List CartItem
  total : Nat
deriving Repr, DecidableEq

/-- Image handling inside `view_cart` (lines 125-126): a truthy key is
presigned, but an empty value is left as-is (no placeholder branch here,
unlike `home` and `product_page`). -/
def cart_item_image (img : String) : ImageRef :=
  if img ≠ "" then presigned_get_url img 3600 else ImageRef.raw img

/-- Embeds `view_cart` (lines 115-132): iterate the cart in insertion
order, skip entries whose product row no longer exists, compute
`subtotal = price * qty` per line and accumulate the total. -/
def view_cart (db : DB) (c : Cart) : CartView :=
  let items := c.filterMap (fun e =>
    match get_product db e.1 with
    | none => none
    | some p => some (⟨p, cart_item_image p.image_url, e.2, p.price * e.2⟩ : CartItem))
  ⟨items, (items.map (fun it => it.subtotal)).sum⟩

/-- The environment as seen by `os.environ.get` at lines 13-15: `none`
models an unset variable. -/
structure Env where
  region : Option String
  s3_bucket : Option String
  sqs_queue_url : Option String
deriving Repr, DecidableEq

/-- The module-level configuration (REGION, BUCKET, SQS_URL). -/
structure Config where
  region : String
  bucket : String
  sqs_url : Option String
deriving Repr, DecidableEq

/-- Embeds the module top level, lines 13-19: REGION defaults to
"ap-south-1"; `if not BUCKET: raise` aborts import (so no route is ever
registered) when S3_BUCKET is unset or empty, since both `None` and `""`
are falsy. -/
def load_config (e : Env) : Except String Config :=
  let region := e.region.getD "ap-south-1"
  let bucket := e.s3_bucket.getD ""
  if bucket = "" then
    Except.error "❌ Environment variable S3_BUCKET is missing!"
  else
    Except.ok ⟨region, bucket, e.sqs_queue_url⟩

/-- Python truthiness of SQS_URL in `sqs_client` (lines 30-31): a client
is returned only when the variable is set and non-empty. -/
def sqs_configured (cfg : Config) : Bool :=
  match cfg.sqs_url with
  | none => false
  | some s => s != ""

/-- Characters kept by werkzeug's `_filename_ascii_strip_re` (the class
`[A-Za-z0-9_.-]`); every other character is deleted. -/
def allowedChar (c : Char) : Bool :=
  (65 ≤ c.toNat && c.toNat ≤ 90) || (97 ≤ c.toNat && c.toNat ≤ 122) ||
    (48 ≤ c.toNat && c.toNat ≤ 57) || c == '_' || c == '.' || c == '-'

/-- ASCII whitespace recognised by Python's `str.split()` with no
argument (space, TAB, LF, VT, FF, CR). -/
def isPyWhitespace (c : Char) : Bool :=
  c == ' ' || c == '\t' || c == '\n' || c.toNat == 11 || c.toNat == 12 || c == '\r'

/-- Characters removed from both ends by `.strip("._")`. -/
def isStripChar (c : Char) : Bool :=
  c == '.' || c == '_'

/-- Python `"_".join(s.split())`: split on runs of whitespace, drop empty
pieces, rejoin with underscores. -/
def pyJoinSplit (l : List Char) : List Char :=
  List.intercalate ['_'] ((l.splitOnP isPyWhitespace).filter (fun s => !s.isEmpty))

/-- Python `s.strip("._")` on a character list. -/
def stripEnds (l : List Char) : List Char :=
  ((l.dropWhile isStripChar).reverse.dropWhile isStripChar).reverse

/-- werkzeug's `secure_filename` on a POSIX host (`os.sep = "/"`,
`os.path.altsep = None`, `os.name != "nt"`), on character lists:
NFKD-normalise and encode to ASCII ignoring errors (the identity on ASCII
input, modelled as dropping non-ASCII characters), replace the path
separator by a space, collapse whitespace runs to single underscores,
delete every character outside `[A-Za-z0-9_.-]`, and strip leading and
trailing dots and underscores. -/
def secure_filename_list (l : List Char) : List Char :=
  let ascii := l.filter (fun c => c.toNat < 128)
  let sepRepl := ascii.map (fun c => if c == '/' then ' ' else c)
  stripEnds ((pyJoinSplit sepRepl).filter allowedChar)

/-- `werkzeug.utils.secure_filename` as called at line 166. -/
def secure_filename (s : String) : String :=
  ⟨secure_filename_list s.data⟩

/-- The S3 key composed at line 167: `f"uploads/(filename)"` with the
sanitised filename. -/
def upload_key (filename : String) : String :=
  "uploads/" ++ secure_filename filename

/-- The order dict built at lines 151-155 and serialised by `json.dumps`
for the SQS message body. -/
structure OrderPayload where
  name : String
  email : String
  items : Cart
deriving Repr, DecidableEq

/-- Everything observable about one `POST /checkout` (lines 148-197):
the S3 keys written, the message bodies enqueued, the flags and the order
record handed to `checkout.html`, and the cart state afterwards. -/
structure CheckoutResult where
  uploaded_keys : List String
  file_url : Option ImageRef
  sent : List OrderPayload
  sqs_sent : Bool
  order_shown : OrderPayload
  cart_after : Cart
deriving Repr, DecidableEq

/-- Embeds the POST branch of `checkout` (lines 148-197). `image_file` is
`some filename` when the form carries a file field "image" (Python then
checks `f.filename` for truthiness). The SQS body is serialised at line
184, before `cart.clear()` at line 189, so the enqueued `items` is the
submission-time cart; but `order["items"]` aliases the module-level
`cart` dict itself, so after `cart.clear()` the order rendered into the
confirmation template carries the cleared (empty) mapping. -/
def checkout_post (cfg : Config) (c : Cart) (name email : String)
    (image_file : Option String) : CheckoutResult :=
  let up : Option String :=
    match image_file with
    | some fn => if fn != "" then some (upload_key fn) else none
    | none => none
  let payload : OrderPayload := ⟨name, email, c⟩
  let wasSent := sqs_configured cfg
  let cleared : Cart := []
  { uploaded_keys := up.toList
    file_url := up.map (fun k => presigned_get_url k 3600)
    sent := if wasSent then [payload] else []
    sqs_sent := wasSent
    order_shown := ⟨name, email, cleared⟩
    cart_after := cleared }

/-- The operations that touch the process-wide cart: `add_to_cart`,
`cart.clear()`, and a full checkout POST. -/
inductive CartOp where
  | add (pid : Nat)
  | clear
  | checkoutOp (cfg : Config) (name email : String) (image_file : Option String)
deriving Repr

/-- Apply one operation to the cart state. -/
def applyOp (c : Cart) : CartOp → Cart
  | CartOp.add pid => add_to_cart c pid
  | CartOp.clear => []
  | CartOp.checkoutOp cfg n em f => (checkout_post cfg c n em f).cart_after

/-- Run a sequence of operations from the empty (initial) cart. -/
def runOps (ops : List CartOp) : Cart :=
  ops.foldl applyOp []

end Storefront

namespace Storefront

theorem cart_get_add_self (c : Cart) (pid : Nat) :
    cart_get (add_to_cart c pid) pid = some ((cart_get c pid).getD 0 + 1) := by
  cases h : cart_get c pid with
  | none =>
    have hf : c.find? (fun e => e.1 == pid) = none := by
      unfold cart_get at h
      exact Option.map_eq_none.mp h
    have h1 : add_to_cart c pid = c ++ [(pid, 1)] := by
      unfold add_to_cart
      rw [h]
    rw [h1]
    unfold cart_get
    rw [List.find?_append, hf]
    simp
  | some q =>
    have h1 : add_to_cart c pid
        = c.map (fun e => if e.1 == pid then (e.1, e.2 + 1) else e) := by
      unfold add_to_cart
      rw [h]
    obtain ⟨e, he, h2⟩ : ∃ e, c.find? (fun e => e.1 == pid) = some e ∧ e.2 = q := by
      unfold cart_get at h
      cases hf : c.find? (fun e => e.1 == pid) with
      | none => simp [hf] at h
      | some e => simp [hf] at h; exact ⟨e, rfl, h⟩
    have hp : e.1 = pid := by simpa using List.find?_some he
    have hcomp : ((fun e : Nat × Nat => e.1 == pid) ∘
        (fun e : Nat × Nat => if e.1 == pid then (e.1, e.2 + 1) else e))
        = fun e : Nat × Nat => e.1 == pid := by
      funext x
      by_cases hb : x.1 = pid <;> simp [hb]
    rw [h1]
    unfold cart_get
    rw [List.find?_map, hcomp, he]
    simp [hp, h2]

theorem cart_get_add_other (c : Cart) (pid q : Nat) (hne : q ≠ pid) :
    cart_get (add_to_cart c pid) q = cart_get c q := by
  cases h : cart_get c pid with
  | none =>
    have h1 : add_to_cart c pid = c ++ [(pid, 1)] := by
      unfold add_to_cart
      rw [h]
    have hq : (pid == q) = false := by
      simp only [beq_eq_false_iff_ne, ne_eq]
      exact fun hc => hne hc.symm
    rw [h1]
    unfold cart_get
    rw [List.find?_append]
    simp [hq]
  | some v =>
    have h1 : add_to_cart c pid
        = c.map (fun e => if e.1 == pid then (e.1, e.2 + 1) else e) := by
      unfold add_to_cart
      rw [h]
    have hcomp : ((fun e : Nat × Nat => e.1 == q) ∘
        (fun e : Nat × Nat => if e.1 == pid then (e.1, e.2 + 1) else e))
        = fun e : Nat × Nat => e.1 == q := by
      funext x
      by_cases hb : x.1 = pid <;> simp [hb]
    rw [h1]
    unfold cart_get
    rw [List.find?_map, hcomp]
    cases hf : c.find? (fun e => e.1 == q) with
    | none => simp
    | some e =>
      have hpe : e.1 = q := by simpa using List.find?_some hf
      have hnp : e.1 ≠ pid := by
        rw [hpe]
        exact hne
      simp [hnp]

theorem add_to_cart_pos (c : Cart) (pid : Nat) (h : ∀ e ∈ c, 1 ≤ e.2) :
    ∀ e ∈ add_to_cart c pid, 1 ≤ e.2 := by
  intro e he
  unfold add_to_cart at he
  cases hg : cart_get c pid with
  | none =>
    rw [hg] at he
    rcases List.mem_append.mp he with h1 | h1
    · exact h e h1
    · simp only [List.mem_singleton] at h1
      rw [h1]
  | some q =>
    rw [hg] at he
    rcases List.mem_map.mp he with ⟨x, hx, hxe⟩
    obtain ⟨a, b⟩ := x
    by_cases hb : a = pid
    · rw [if_pos (by simpa using hb)] at hxe
      rw [← hxe]
      exact Nat.succ_le_succ (Nat.zero_le b)
    · rw [if_neg (by simpa using hb)] at hxe
      rw [← hxe]
      exact h (a, b) hx

theorem foldl_ops_pos (ops : List CartOp) :
    ∀ c : Cart, (∀ e ∈ c, 1 ≤ e.2) → ∀ e ∈ ops.foldl applyOp c, 1 ≤ e.2 := by
  induction ops with
  | nil =>
    intro c hc e he
    exact hc e (by simpa using he)
  | cons op ops ih =>
    intro c hc e he
    rw [List.foldl_cons] at he
    refine ih (applyOp c op) ?_ e he
    intro x hx
    cases op with
    | add pid => exact add_to_cart_pos c pid hc x hx
    | clear => simp [applyOp] at hx
    | checkoutOp cfg n em f => simp [applyOp, checkout_post] at hx

/-- C10: for every product id and every cart state, `add_to_cart` on that
id changes only the entry for that id — incrementing it by one, creating it
at one if absent — and leaves the entries of all other product ids
unchanged. -/
theorem add_to_cart_frame (c : Cart) (pid : Nat) :
    cart_get (add_to_cart c pid) pid = some ((cart_get c pid).getD 0 + 1) ∧
    ∀ q, q ≠ pid → cart_get (add_to_cart c pid) q = cart_get c q :=
  ⟨cart_get_add_self c pid, fun q hq => cart_get_add_other c pid q hq⟩

/-- Witness for C10 at the concrete cart [(1, 2), (2, 5)]: adding id 1
takes its quantity to 3 and leaves id 2 untouched. -/
theorem add_to_cart_frame_witness :
    cart_get (add_to_cart [(1, 2), (2, 5)] 1) 1 = some 3 ∧
    cart_get (add_to_cart [(1, 2), (2, 5)] 1) 2 = cart_get [(1, 2), (2, 5)] 2 := by
  constructor
  · have h := (add_to_cart_frame [(1, 2), (2, 5)] 1).1
    simpa using h
  · exact (add_to_cart_frame [(1, 2), (2, 5)] 1).2 2 (by decide)

/-- C9: starting from the empty cart, after any sequence of cart-add,
cart-clear and checkout operations, every entry present in the cart has
quantity at least 1. -/
theorem cart_quantities_positive (ops : List CartOp) :
    (runOps ops).all (fun e => decide (1 ≤ e.2)) = true := by
  rw [List.all_eq_true]
  intro e he
  have hpos : 1 ≤ e.2 := by
    refine foldl_ops_pos ops [] ?_ e ?_
    · intro x hx
      simp at hx
    · simpa [runOps] using he
  exact decide_eq_true hpos

/-- C5: after every checkout POST, whatever the prior cart contents, the
cart mapping is empty and a subsequent cart view shows zero items and a
total of zero. -/
theorem checkout_clears_cart (cfg : Config) (c : Cart) (n em : String)
    (f : Option String) (db : DB) :
    (checkout_post cfg c n em f).cart_after = [] ∧
    (view_cart db (checkout_post cfg c n em f).cart_after).items = [] ∧
    (view_cart db (checkout_post cfg c n em f).cart_after).total = 0 :=
  ⟨rfl, rfl, rfl⟩

/-- C3: with no queue endpoint configured, checkout still returns a result
that reports the message as not sent and enqueues nothing; with one
configured, exactly one message is enqueued, the result reports it sent,
and the payload's items field is the cart as it was before clearing. -/
theorem checkout_sqs_behavior (cfg : Config) (c : Cart) (n em : String)
    (f : Option String) :
    (sqs_configured cfg = false →
      (checkout_post cfg c n em f).sent = [] ∧
      (checkout_post cfg c n em f).sqs_sent = false) ∧
    (sqs_configured cfg = true →
      (checkout_post cfg c n em f).sent = [⟨n, em, c⟩] ∧
      (checkout_post cfg c n em f).sqs_sent = true) := by
  constructor <;> intro h <;> simp [checkout_post, h]

/-- Witness for C3: one checkout with SQS_URL unset (reports not sent,
nothing enqueued) and one with it set (reports sent, one message whose
items are the submission-time cart). -/
theorem checkout_sqs_behavior_witness :
    (checkout_post ⟨"ap-south-1", "bkt", none⟩ [(1, 2)] "A" "a@x" none).sent = [] ∧
    (checkout_post ⟨"ap-south-1", "bkt", none⟩ [(1, 2)] "A" "a@x" none).sqs_sent = false ∧
    (checkout_post ⟨"ap-south-1", "bkt", some "u"⟩ [(1, 2)] "A" "a@x" none).sent
      = [⟨"A", "a@x", [(1, 2)]⟩] ∧
    (checkout_post ⟨"ap-south-1", "bkt", some "u"⟩ [(1, 2)] "A" "a@x" none).sqs_sent = true := by
  obtain ⟨h1, h2⟩ :=
    (checkout_sqs_behavior ⟨"ap-south-1", "bkt", none⟩ [(1, 2)] "A" "a@x" none).1 rfl
  obtain ⟨h3, h4⟩ :=
    (checkout_sqs_behavior ⟨"ap-south-1", "bkt", some "u"⟩ [(1, 2)] "A" "a@x" none).2 rfl
  exact ⟨h1, h2, h3, h4⟩

/-- C1 (evaluation at the failing input): with a non-empty cart [(1, 2)],
the SQS message body serialised at line 184 still carries the
submission-time items, but the order rendered into the confirmation page
carries the empty mapping, because `order["items"]` aliases the live
`cart` dict and `cart.clear()` (line 189) runs before `render_template`
(line 191). -/
theorem confirmation_page_items_cleared :
    (checkout_post ⟨"ap-south-1", "bkt", some "u"⟩ [(1, 2)] "Alice" "alice@x" none).sent
      = [⟨"Alice", "alice@x", [(1, 2)]⟩] ∧
    (checkout_post ⟨"ap-south-1", "bkt", some "u"⟩ [(1, 2)] "Alice" "alice@x" none).order_shown.items
      = [] ∧
    ([(1, 2)] : Cart) ≠ [] := by
  refine ⟨rfl, rfl, ?_⟩
  decide

/-- C4: starting from a cart without product `pid`, two cart-adds on `pid`
yield the entry with quantity 2, and the subsequent cart view contains a
line for it with subtotal price * 2, the grand total being the sum of all
line subtotals. -/
theorem add_twice_cart_view (db : DB) (c : Cart) (pid : Nat) (p : Product)
    (hnew : cart_get c pid = none) (hp : get_product db pid = some p) :
    cart_get (add_to_cart (add_to_cart c pid) pid) pid = some 2 ∧
    (∃ it ∈ (view_cart db (add_to_cart (add_to_cart c pid) pid)).items,
        it.qty = 2 ∧ it.subtotal = p.price * 2) ∧
    (view_cart db (add_to_cart (add_to_cart c pid) pid)).total =
      ((view_cart db (add_to_cart (add_to_cart c pid) pid)).items.map
        (fun it => it.subtotal)).sum := by
  have h1 : cart_get (add_to_cart c pid) pid = some 1 := by
    rw [cart_get_add_self, hnew]
    rfl
  have h2 : cart_get (add_to_cart (add_to_cart c pid) pid) pid = some 2 := by
    rw [cart_get_add_self, h1]
    rfl
  refine ⟨h2, ?_, rfl⟩
  obtain ⟨e, he, he2⟩ : ∃ e,
      (add_to_cart (add_to_cart c pid) pid).find? (fun e => e.1 == pid) = some e
        ∧ e.2 = 2 := by
    unfold cart_get at h2
    cases hf : (add_to_cart (add_to_cart c pid) pid).find? (fun e => e.1 == pid) with
    | none => rw [hf] at h2; simp at h2
    | some e => rw [hf] at h2; simp at h2; exact ⟨e, rfl, h2⟩
  have hmem : e ∈ add_to_cart (add_to_cart c pid) pid := List.mem_of_find?_eq_some he
  have hkey : e.1 = pid := by simpa using List.find?_some he
  refine ⟨⟨p, cart_item_image p.image_url, 2, p.price * 2⟩, ?_, rfl, rfl⟩
  refine List.mem_filterMap.mpr ⟨e, hmem, ?_⟩
  rw [hkey, hp, he2]

/-- Witness for C4: product 1 (price 10) on an initially empty cart. -/
theorem add_twice_cart_view_witness :
    cart_get (add_to_cart (add_to_cart [] 1) 1) 1 = some 2 ∧
    (∃ it ∈ (view_cart [⟨1, "Phone", 10, "products/phone.jpg"⟩]
        (add_to_cart (add_to_cart [] 1) 1)).items,
        it.qty = 2 ∧ it.subtotal = 10 * 2) ∧
    (view_cart [⟨1, "Phone", 10, "products/phone.jpg"⟩]
        (add_to_cart (add_to_cart [] 1) 1)).total =
      ((view_cart [⟨1, "Phone", 10, "products/phone.jpg"⟩]
        (add_to_cart (add_to_cart [] 1) 1)).items.map (fun it => it.subtotal)).sum :=
  add_twice_cart_view [⟨1, "Phone", 10, "products/phone.jpg"⟩] [] 1
    ⟨1, "Phone", 10, "products/phone.jpg"⟩ rfl rfl

/-- C8: `GET /product/(pid)` answers 404 with the plain-text body
"Product not found" when no row has that id, and renders the detail page
of the first matching row otherwise. -/
theorem product_page_spec (db : DB) (pid : Nat) :
    ((∀ p ∈ db, p.id ≠ pid) →
      product_page db pid = ProductPageResponse.notFound "Product not found" 404) ∧
    (∀ p, get_product db pid = some p →
      product_page db pid = ProductPageResponse.page ⟨p, resolve_image p.image_url⟩) := by
  constructor
  · intro h
    have hg : get_product db pid = none := by
      rw [get_product, List.find?_eq_none]
      intro x hx
      simpa using h x hx
    unfold product_page
    rw [hg]
  · intro p hp
    unfold product_page
    rw [hp]

/-- Witness for C8: a one-product table answers 404 for id 2 and the
detail page for id 1. -/
theorem product_page_spec_witness :
    product_page [⟨1, "Phone", 10, ""⟩] 2
      = ProductPageResponse.notFound "Product not found" 404 ∧
    product_page [⟨1, "Phone", 10, ""⟩] 1
      = ProductPageResponse.page ⟨⟨1, "Phone", 10, ""⟩, resolve_image ""⟩ := by
  constructor
  · exact (product_page_spec [⟨1, "Phone", 10, ""⟩] 2).1 (by decide)
  · exact (product_page_spec [⟨1, "Phone", 10, ""⟩] 1).2 ⟨1, "Phone", 10, ""⟩ rfl

/-- C7: when S3_BUCKET is absent the module import raises (modelled as
`Except.error`) with the descriptive message, so no route handler is ever
reached (every handler requires the `Config` that only `Except.ok`
provides); when REGION is absent the configuration defaults it to
"ap-south-1". -/
theorem startup_config (e : Env) :
    (e.s3_bucket = none →
      load_config e = Except.error "❌ Environment variable S3_BUCKET is missing!") ∧
    (e.region = none → ∀ cfg, load_config e = Except.ok cfg → cfg.region = "ap-south-1") := by
  constructor
  · intro h
    simp [load_config, h]
  · intro h cfg hok
    unfold load_config at hok
    by_cases hb : e.s3_bucket.getD "" = ""
    · rw [if_pos hb] at hok
      exact absurd hok (by simp)
    · rw [if_neg hb] at hok
      have : Config.mk (e.region.getD "ap-south-1") (e.s3_bucket.getD "") e.sqs_queue_url
          = cfg := by
        exact Except.ok.inj hok
      rw [← this, h]
      rfl

/-- Witness for C7: an empty environment aborts startup with the message;
an environment with only S3_BUCKET set yields region "ap-south-1". -/
theorem startup_config_witness :
    load_config ⟨none, none, none⟩
      = Except.error "❌ Environment variable S3_BUCKET is missing!" ∧
    Config.region ⟨"ap-south-1", "bkt", none⟩ = "ap-south-1" := by
  constructor
  · exact (startup_config ⟨none, none, none⟩).1 rfl
  · exact (startup_config ⟨none, some "bkt", none⟩).2 rfl ⟨"ap-south-1", "bkt", none⟩
      (by simp [load_config])

/-- C2 counterexample: in the cart view (one route the claim covers), a
product whose image key is empty is rendered with the raw empty value,
not the placeholder — `view_cart` has no placeholder branch. -/
theorem cart_view_empty_image_not_placeholder :
    ((view_cart [⟨1, "Phone", 10, ""⟩] [(1, 1)]).items.map (fun it => it.image))
      = [ImageRef.raw ""] ∧
    ImageRef.raw "" ≠ ImageRef.placeholder := by
  refine ⟨rfl, ?_⟩
  decide

/-- C2 amended: on the listing and detail pages every product whose image
key is empty or absent is shown with the placeholder reference; the cart
view, however, leaves the empty value untouched. -/
theorem empty_image_placeholder (db : DB) :
    (∀ rp ∈ home db, rp.product.image_url = "" → rp.image = ImageRef.placeholder) ∧
    (∀ pid rp, product_page db pid = ProductPageResponse.page rp →
      rp.product.image_url = "" → rp.image = ImageRef.placeholder) := by
  constructor
  · intro rp hm himg
    obtain ⟨p, hpm, hpe⟩ := List.mem_map.mp hm
    rw [← hpe] at himg ⊢
    simp only at himg
    simp [resolve_image, himg]
  · intro pid rp hpage himg
    unfold product_page at hpage
    cases hg : get_product db pid with
    | none =>
      rw [hg] at hpage
      exact absurd hpage (by simp)
    | some p =>
      rw [hg] at hpage
      have hrp : rp = ⟨p, resolve_image p.image_url⟩ :=
        (ProductPageResponse.page.inj hpage).symm
      rw [hrp] at himg ⊢
      simp only at himg
      simp [resolve_image, himg]

/-- Witness for C2 amended: a one-product table with an empty image key;
both the listing entry and the detail page show the placeholder. -/
theorem empty_image_placeholder_witness :
    RenderedProduct.image ⟨⟨1, "Phone", 10, ""⟩, ImageRef.placeholder⟩
      = ImageRef.placeholder ∧
    RenderedProduct.image ⟨⟨1, "Phone", 10, ""⟩, resolve_image ""⟩
      = ImageRef.placeholder := by
  constructor
  · exact (empty_image_placeholder [⟨1, "Phone", 10, ""⟩]).1
      ⟨⟨1, "Phone", 10, ""⟩, ImageRef.placeholder⟩ (by simp [home, resolve_image]) rfl
  · exact (empty_image_placeholder [⟨1, "Phone", 10, ""⟩]).2 1
      ⟨⟨1, "Phone", 10, ""⟩, resolve_image ""⟩ rfl rfl

theorem dropWhile_head_false (p : Char → Bool) :
    ∀ (l : List Char) (c : Char) (t : List Char),
      l.dropWhile p = c :: t → p c = false := by
  intro l
  induction l with
  | nil =>
    intro c t h
    simp at h
  | cons x xs ih =>
    intro c t h
    cases hx : p x with
    | true =>
      rw [List.dropWhile_cons, if_pos hx] at h
      exact ih c t h
    | false =>
      rw [List.dropWhile_cons, if_neg (by simp [hx])] at h
      obtain ⟨h1, h2⟩ := List.cons.inj h
      rw [← h1]
      exact hx

theorem stripEnds_eq_append (l : List Char) :
    ∃ r, l.dropWhile isStripChar = stripEnds l ++ r := by
  refine ⟨((l.dropWhile isStripChar).reverse.takeWhile isStripChar).reverse, ?_⟩
  unfold stripEnds
  conv_lhs => rw [← List.reverse_reverse (l.dropWhile isStripChar),
    ← List.takeWhile_append_dropWhile isStripChar (l.dropWhile isStripChar).reverse,
    List.reverse_append]

theorem mem_stripEnds (l : List Char) (c : Char) (h : c ∈ stripEnds l) : c ∈ l := by
  obtain ⟨r, hr⟩ := stripEnds_eq_append l
  have h1 : c ∈ l.dropWhile isStripChar := by
    rw [hr]
    exact List.mem_append.mpr (Or.inl h)
  have h2 : c ∈ l.takeWhile isStripChar ++ l.dropWhile isStripChar :=
    List.mem_append.mpr (Or.inr h1)
  rwa [List.takeWhile_append_dropWhile] at h2

theorem stripEnds_head_false (l : List Char) (c : Char) (t : List Char)
    (h : stripEnds l = c :: t) : isStripChar c = false := by
  obtain ⟨r, hr⟩ := stripEnds_eq_append l
  rw [h] at hr
  exact dropWhile_head_false isStripChar l c (t ++ r) (by simpa using hr)

theorem secure_filename_chars (fn : String) :
    ∀ c ∈ (secure_filename fn).data, allowedChar c = true := by
  intro c hc
  have hc2 : c ∈ secure_filename_list fn.data := hc
  unfold secure_filename_list at hc2
  have hm := mem_stripEnds _ _ hc2
  exact (List.mem_filter.mp hm).2

theorem secure_filename_no_slash (fn : String) :
    ('/') ∉ (secure_filename fn).data := by
  intro h
  have hall := secure_filename_chars fn _ h
  exact absurd hall (by decide)

theorem secure_filename_not_dots (fn : String) :
    secure_filename fn ≠ "." ∧ secure_filename fn ≠ ".." := by
  constructor
  · intro h
    have hd : stripEnds ((pyJoinSplit ((fn.data.filter
        (fun c => c.toNat < 128)).map (fun c => if c == '/' then ' ' else c))).filter
        allowedChar) = '.' :: [] := congrArg String.data h
    have := stripEnds_head_false _ _ _ hd
    exact absurd this (by decide)
  · intro h
    have hd : stripEnds ((pyJoinSplit ((fn.data.filter
        (fun c => c.toNat < 128)).map (fun c => if c == '/' then ' ' else c))).filter
        allowedChar) = '.' :: ('.' :: []) := congrArg String.data h
    have := stripEnds_head_false _ _ _ hd
    exact absurd this (by decide)

/-- C6: for every submitted filename, the S3 key written at checkout is
"uploads/" followed by the sanitised filename, whose characters all lie in
the safe class [A-Za-z0-9_.-] — in particular no path separator — and
which is never the traversal segment ".." (nor "."); so the key stays
under the uploads/ prefix and contains no traversal segment. -/
theorem upload_key_safe (fn : String) :
    upload_key fn = "uploads/" ++ secure_filename fn ∧
    (∀ c ∈ (secure_filename fn).data, allowedChar c = true) ∧
    ('/') ∉ (secure_filename fn).data ∧
    secure_filename fn ≠ "." ∧ secure_filename fn ≠ ".." :=
  ⟨rfl, secure_filename_chars fn, secure_filename_no_slash fn,
    (secure_filename_not_dots fn).1, (secure_filename_not_dots fn).2⟩

/-- Witness for C6 at the filename from the spec, "../../etc/passwd":
the stored key is "uploads/etc_passwd", slash-free past the prefix and
with no traversal segment. -/
theorem upload_key_safe_witness :
    upload_key "../../etc/passwd" = "uploads/etc_passwd" ∧
    ('/') ∉ (secure_filename "../../etc/passwd").data ∧
    secure_filename "../../etc/passwd" ≠ ".." := by
  refine ⟨by decide, (upload_key_safe "../../etc/passwd").2.2.1,
    (upload_key_safe "../../etc/passwd").2.2.2.2⟩

end Storefront
